import Mathlib

/-!
Shallow embedding of the Connection Supervisor in `src/bot-control.js`
(class `BotManager`).

JavaScript `Map` objects keyed by bot id are modelled as association
lists (`List (String × α)`) with `Map.get`/`Map.set`/`Map.delete`
semantics (`alookup`/`ainsert`/`aerase`).  The mutable mineflayer bot
objects captured by the event-handler closures are modelled as an
append-only `sessions` list: `this.bots` maps a bot id to the index of
its current session, `stopBot` mutates the session in place (setting
`manuallyStopped`), and a late event handler for an old session still
reads that same session record — exactly the aliasing the closures
produce in the JavaScript.

Timer delays are rationals: the JavaScript value
`Math.min(300000, 5000 * Math.pow(1.5, attempts))` is the exact double
`5000*(3/2)^attempts` for every attempt count below the cap (the
mantissa of `5^4*3^n/2^(n-3)` fits in 53 bits for all `n ≤ 33`, and the
cap 300000 is returned for every `n ≥ 11`), so the rational model agrees
with the floating-point computation at every attempt count.

External effects (mineflayer I/O, socket.io broadcast, console output)
are modelled only where an operation's result depends on them: the
outcome of `mineflayer.createBot` is an `Option String` parameter
(`none` = a bot object is created, `some e` = the constructor throws
with message `e`), the outcome of `bot.chat` is a `chatThrows : Bool`
parameter, and log emission is returned as a list of `Log` records.
-/

namespace BotControl

/-- `Map.get`: first binding of the key, if any. -/
def alookup {α : Type} : List (String × α) → String → Option α
  | [], _ => none
  | kv :: t, k => if kv.1 = k then some kv.2 else alookup t k

/-- `Map.set`: replace the existing binding in place, else append. -/
def ainsert {α : Type} : List (String × α) → String → α → List (String × α)
  | [], k, v => [(k, v)]
  | kv :: t, k, v => if kv.1 = k then (k, v) :: t else kv :: ainsert t k v

/-- `Map.delete`: remove every binding of the key. -/
def aerase {α : Type} : List (String × α) → String → List (String × α)
  | [], _ => []
  | kv :: t, k => if kv.1 = k then aerase t k else kv :: aerase t k

/-- Number of bindings of a key (used to state the one-handle invariant). -/
def keyCount {α : Type} : List (String × α) → String → Nat
  | [], _ => 0
  | kv :: t, k => (if kv.1 = k then 1 else 0) + keyCount t k

/-- Endpoint configuration object handed to `startBot` (`botConfig`).
`enabled` is `none` when the field is absent (JavaScript `undefined`);
the code's auto-reconnect test is `botConfig.enabled !== false`. -/
structure BotConfig where
  id : String
  name : String := ""
  server : String := ""
  port : Nat := 25565
  username : String := ""
  password : Option String := none
  version : Option String := none
  enabled : Option Bool := none
deriving Repr, DecidableEq

/-- One status record of `this.botStatus` (top-level fields the program
writes; `none` stands for both JavaScript `null` and an absent field). -/
structure Status where
  status : String
  connectedSince : Option String := none
  lastError : Option String := none
  world : Option String := none
  dimension : Option String := none
  position : Option String := none
  stats : Option (List (String × String)) := none
deriving Repr, DecidableEq

/-- A shallow status patch: an outer `some` means the key is present in
the `updates` object passed to `updateStatus` (a present key overwrites
even with value `undefined`, as JavaScript spread does). -/
structure StatusPatch where
  status : Option String := none
  connectedSince : Option (Option String) := none
  lastError : Option (Option String) := none
  world : Option (Option String) := none
  dimension : Option (Option String) := none
  position : Option (Option String) := none
  stats : Option (Option (List (String × String))) := none
deriving Repr, DecidableEq

/-- `{ ...currentStatus, ...updates }` — shallow merge, field by field. -/
def mergeStatus (cur : Status) (p : StatusPatch) : Status where
  status := p.status.getD cur.status
  connectedSince := p.connectedSince.getD cur.connectedSince
  lastError := p.lastError.getD cur.lastError
  world := p.world.getD cur.world
  dimension := p.dimension.getD cur.dimension
  position := p.position.getD cur.position
  stats := p.stats.getD cur.stats

/-- One mineflayer bot object: the fields of it that the supervisor
reads or writes (`bot.botId`, `bot.botConfig`, `bot.manuallyStopped`). -/
structure Session where
  botId : String
  cfg : BotConfig
  manuallyStopped : Bool
deriving Repr, DecidableEq

/-- A pending `setTimeout` handle in `this.reconnectTimers`: the delay it
was armed with and the config its callback will pass to `startBot`. -/
structure Timer where
  delayMs : ℚ
  cfg : BotConfig
deriving Repr, DecidableEq

/-- One `emitLog(botId, level, message)` call. -/
structure Log where
  botId : String
  level : String
  msg : String
deriving Repr, DecidableEq

/-- The mutable state of the `BotManager` singleton. -/
structure MgrState where
  bots : List (String × Nat)
  sessions : List Session
  botData : List (String × BotConfig)
  botStatus : List (String × Status)
  keepAliveTimers : List (String × Bool)
  reconnectTimers : List (String × Timer)
  messageQueue : List (String × List String)
  reconnectAttempts : List (String × Nat)
deriving Repr, DecidableEq

/-- `Math.min(300000, 5000 * Math.pow(1.5, attempts))` (line 283). -/
def reconnectDelay (attempts : Nat) : ℚ :=
  min 300000 (5000 * (3 / 2 : ℚ) ^ attempts)

/-- `updateStatus(botId, updates)` (lines 410-419): merge the patch into
the existing record (default `{ status: 'offline', stats: {} }`). -/
def updateStatus (s : MgrState) (botId : String) (p : StatusPatch) : MgrState :=
  let cur := (alookup s.botStatus botId).getD { status := "offline", stats := some [] }
  { s with botStatus := ainsert s.botStatus botId (mergeStatus cur p) }

/-- `scheduleReconnect(botId, botConfig)` (lines 258-293).  The call
sites always pass a config object, so the `!botConfig` guard reduces to
the `enabled === false` test.  The manually-stopped test reads the bot
currently registered in `this.bots` (which may be absent or belong to a
newer session than the event that triggered the call). -/
def scheduleReconnect (s : MgrState) (botId : String) (cfg : BotConfig) : MgrState :=
  if cfg.enabled = some false then s
  else
    let stopped :=
      match alookup s.bots botId with
      | some sid =>
        match s.sessions.get? sid with
        | some sess => sess.manuallyStopped
        | none => false
      | none => false
    if stopped then s
    else
      let attempts := (alookup s.reconnectAttempts botId).getD 0 + 1
      let s1 := { s with reconnectAttempts := ainsert s.reconnectAttempts botId attempts }
      { s1 with reconnectTimers := ainsert s1.reconnectTimers botId ⟨reconnectDelay attempts, cfg⟩ }

/-- `cleanupBot(botId, scheduleReconnect = true)` (lines 448-469). -/
def cleanupBot (s : MgrState) (botId : String) (schedReconnect : Bool) : MgrState :=
  let s1 := { s with bots := aerase s.bots botId }
  let s2 := { s1 with keepAliveTimers := aerase s1.keepAliveTimers botId }
  if schedReconnect then s2
  else { s2 with reconnectTimers := aerase s2.reconnectTimers botId }

/-- `startKeepAlive(botId)` (lines 472-521): no-op when no bot is
registered, else (re)arm the 45-second interval for the endpoint. -/
def startKeepAlive (s : MgrState) (botId : String) : MgrState :=
  match alookup s.bots botId with
  | none => s
  | some _ => { s with keepAliveTimers := ainsert s.keepAliveTimers botId true }

/-- `startBot(botConfig)` (lines 49-255).  `createErr = none` models
`mineflayer.createBot` returning a bot object, `some e` models it
throwing with message `e` (the `catch` path). -/
def startBot (s : MgrState) (cfg : BotConfig) (createErr : Option String) :
    MgrState × List Log :=
  let botId := cfg.id
  let s1 := { s with reconnectTimers := aerase s.reconnectTimers botId }
  if (alookup s1.bots botId).isSome then
    (s1, [⟨botId, "warn", "Bot is already running"⟩])
  else
    let s2 := updateStatus s1 botId { status := some "connecting" }
    match createErr with
    | none =>
      let sid := s2.sessions.length
      let s3 := { s2 with
        sessions := s2.sessions ++ [Session.mk botId cfg false],
        bots := ainsert s2.bots botId sid }
      let s4 := { s3 with reconnectAttempts := ainsert s3.reconnectAttempts botId 0 }
      (s4, [⟨botId, "info", "Starting bot"⟩])
    | some emsg =>
      let s3 := updateStatus s2 botId { status := some "error", lastError := some (some emsg) }
      if cfg.enabled = some false then
        (s3, [⟨botId, "info", "Starting bot"⟩])
      else
        (scheduleReconnect s3 botId cfg, [⟨botId, "info", "Starting bot"⟩])

/-- Mark the session a live handle points at as manually stopped
(`bot.manuallyStopped = true` inside `stopBot`). -/
def setStopped (l : List Session) (sid : Nat) : List Session :=
  match l.get? sid with
  | some sess => l.set sid { sess with manuallyStopped := true }
  | none => l

/-- `stopBot(botId)` (lines 296-320). -/
def stopBot (s : MgrState) (botId : String) : MgrState :=
  let sidOpt := alookup s.bots botId
  let s1 := { s with reconnectTimers := aerase s.reconnectTimers botId }
  let s2 := { s1 with reconnectAttempts := ainsert s1.reconnectAttempts botId 0 }
  match sidOpt with
  | some sid =>
    let s3 := { s2 with sessions := setStopped s2.sessions sid }
    cleanupBot s3 botId false
  | none => updateStatus s2 botId { status := some "offline" }

/-- `shutdownAll()` (lines 323-332): iterate the live handles only,
quit and clean each up, then clear `this.bots`. -/
def shutdownAll (s : MgrState) : MgrState :=
  let keys := s.bots.map Prod.fst
  let s1 := keys.foldl (fun st k => cleanupBot st k false) s
  { s1 with bots := [] }

/-- `sendMessage(botId, message)` (lines 335-361).  `chatThrows` models
`bot.chat` throwing.  Returns `true` = delivered, `false` = queued. -/
def sendMessage (s : MgrState) (botId msg : String) (chatThrows : Bool) :
    MgrState × Bool :=
  match alookup s.bots botId with
  | some _ =>
    if chatThrows then
      ({ s with messageQueue :=
          ainsert s.messageQueue botId (((alookup s.messageQueue botId).getD []) ++ [msg]) },
        false)
    else (s, true)
  | none =>
    ({ s with messageQueue :=
        ainsert s.messageQueue botId (((alookup s.messageQueue botId).getD []) ++ [msg]) },
      false)

/-- `processMessageQueue(botId)` (lines 364-387): schedule message `i`
of the queue to be sent after `1000 * i` ms, then clear the queue.  The
returned list is the set of `setTimeout(send, 1000*index)` calls made. -/
def processMessageQueue (s : MgrState) (botId : String) :
    MgrState × List (ℚ × String) :=
  let queue := (alookup s.messageQueue botId).getD []
  if queue.isEmpty then (s, [])
  else
    let sched := queue.enum.map (fun p => ((1000 : ℚ) * p.1, p.2))
    ({ s with messageQueue := ainsert s.messageQueue botId [] }, sched)

/-- The `bot.once('spawn', ...)` handler (lines 93-125) firing for
session `sid`: status goes online with telemetry, keep-alive starts,
the queued messages are flushed.  (The AuthMe `setTimeout` chat calls
touch no supervisor state and are omitted.) -/
def onSpawn (s : MgrState) (sid : Nat) (now world pos : String) :
    MgrState × List (ℚ × String) :=
  match s.sessions.get? sid with
  | none => (s, [])
  | some sess =>
    let s1 := updateStatus s sess.botId
      { status := some "online", connectedSince := some (some now),
        world := some (some world), dimension := some (some world),
        position := some (some pos) }
    let s2 := startKeepAlive s1 sess.botId
    processMessageQueue s2 sess.botId

/-- The `bot.on('kicked', reason => ...)` handler (lines 174-187) firing
for session `sid`. -/
def onKicked (s : MgrState) (sid : Nat) (reason : String) : MgrState :=
  match s.sessions.get? sid with
  | none => s
  | some sess =>
    let s1 := updateStatus s sess.botId
      { status := some "offline", lastError := some (some ("Kicked: " ++ reason)) }
    let s2 :=
      if sess.cfg.enabled ≠ some false ∧ sess.manuallyStopped = false then
        scheduleReconnect s1 sess.botId sess.cfg
      else s1
    cleanupBot s2 sess.botId true

/-- The `bot.on('error', err => ...)` handler (lines 189-202) firing for
session `sid`; `msg` is `err.message` (`none` when absent). -/
def onError (s : MgrState) (sid : Nat) (msg : Option String) : MgrState :=
  match s.sessions.get? sid with
  | none => s
  | some sess =>
    let s1 := updateStatus s sess.botId
      { status := some "error", lastError := some msg }
    let s2 :=
      if sess.cfg.enabled ≠ some false ∧ sess.manuallyStopped = false then
        scheduleReconnect s1 sess.botId sess.cfg
      else s1
    cleanupBot s2 sess.botId true

/-- The `bot.on('end', reason => ...)` handler (lines 204-214) firing
for session `sid`.  The reason is only logged, never stored. -/
def onEnd (s : MgrState) (sid : Nat) (_reason : Option String) : MgrState :=
  match s.sessions.get? sid with
  | none => s
  | some sess =>
    let s1 := updateStatus s sess.botId { status := some "offline" }
    let s2 :=
      if sess.cfg.enabled ≠ some false ∧ sess.manuallyStopped = false then
        scheduleReconnect s1 sess.botId sess.cfg
      else s1
    cleanupBot s2 sess.botId true

/-- A pending reconnect timer firing: its callback calls
`startBot(botConfig)` (lines 287-290). -/
def fireReconnect (s : MgrState) (botId : String) (createErr : Option String) :
    MgrState × List Log :=
  match alookup s.reconnectTimers botId with
  | some t => startBot s t.cfg createErr
  | none => (s, [])

/-- `getBotStatus(botId)` (lines 390-392): total, with the bare default
`{ status: 'offline' }` when nothing was ever recorded. -/
def getBotStatus (s : MgrState) (botId : String) : Status :=
  (alookup s.botStatus botId).getD { status := "offline" }

/-- `getAllBotStatuses()` (lines 395-401): rebuild a mapping from every
recorded entry. -/
def getAllBotStatuses (s : MgrState) : List (String × Status) :=
  s.botStatus.foldl (fun acc kv => ainsert acc kv.1 kv.2) []

/-- `loadBots()` (lines 22-42): register each persisted config with an
offline status, an empty queue and a zero attempt counter. -/
def loadBots (cfgs : List BotConfig) : MgrState :=
  cfgs.foldl
    (fun s cfg =>
      { s with
        botData := ainsert s.botData cfg.id cfg,
        botStatus := ainsert s.botStatus cfg.id
          { status := "offline", connectedSince := none, lastError := none,
            stats := some [] },
        messageQueue := ainsert s.messageQueue cfg.id [],
        reconnectAttempts := ainsert s.reconnectAttempts cfg.id 0 })
    ⟨[], [], [], [], [], [], [], []⟩

/-- Delay (ms) of the pending reconnect timer of an endpoint, if any. -/
def timerDelay (s : MgrState) (botId : String) : Option ℚ :=
  (alookup s.reconnectTimers botId).map Timer.delayMs

/-! ### Concrete scenario states used by the claim theorems

`cfg1` is an endpoint whose `enabled` field is absent, i.e. the
auto-reconnect test `enabled !== false` passes. -/

def cfg1 : BotConfig := { id := "e1", name := "Endpoint One" }

/-- The session object `startBot` creates for `cfg1` on a fresh manager. -/
def sess1 : Session := { botId := "e1", cfg := cfg1, manuallyStopped := false }

/-- Fresh manager with `cfg1` registered (`loadBots`). -/
def failT0 : MgrState := loadBots [cfg1]

/-- First start attempt: `mineflayer.createBot` throws. -/
def failT1 : MgrState := (startBot failT0 cfg1 (some "connect ECONNREFUSED")).1

/-- The scheduled retry fires and the creation throws again. -/
def failT2 : MgrState := (fireReconnect failT1 "e1" (some "connect ECONNREFUSED")).1

/-- The next scheduled retry fires and the creation throws a third time. -/
def failT3 : MgrState := (fireReconnect failT2 "e1" (some "connect ECONNREFUSED")).1

/-- Start succeeds in creating the bot object (state `connecting`). -/
def asyncT1 : MgrState := (startBot failT0 cfg1 none).1

/-- The connection then fails asynchronously (`error` event). -/
def asyncT2 : MgrState := onError asyncT1 0 (some "connect ECONNREFUSED")

/-- The scheduled retry fires; creation succeeds again. -/
def asyncT3 : MgrState := (fireReconnect asyncT2 "e1" none).1

/-- The second session also fails asynchronously. -/
def asyncT4 : MgrState := onError asyncT3 1 (some "connect ECONNREFUSED")

/-- Start succeeds (session 0 live, state `connecting`). -/
def stopT1 : MgrState := (startBot failT0 cfg1 none).1

/-- The connection errors: reconnect scheduled, handle discarded. -/
def stopT2 : MgrState := onError stopT1 0 (some "connect ECONNREFUSED")

/-- The user stops the endpoint: pending reconnect timer cleared. -/
def stopT3 : MgrState := stopBot stopT2 "e1"

/-- The delayed `end` event of the stopped session 0 then arrives. -/
def stopT4 : MgrState := onEnd stopT3 0 none

/-- Start succeeds, then the endpoint is kicked: reconnect timer pending,
handle removed from `this.bots`. -/
def shutT2 : MgrState := onKicked stopT1 0 "Server closed"

/-- `shutdownAll` on a manager whose only endpoint is disconnected with a
pending reconnect timer. -/
def shutT3 : MgrState := shutdownAll shutT2

/-- A `kicked` event carrying a reason, received while session 0 is live. -/
def kickedState : MgrState := onKicked stopT1 0 "You are banned"

/-- Three messages queued while the endpoint is offline, then a
successful start (still `connecting`, spawn not yet fired). -/
def queueT1 : MgrState := (sendMessage failT0 "e1" "first" false).1

def queueT2 : MgrState := (sendMessage queueT1 "e1" "second" false).1

def queueT3 : MgrState := (sendMessage queueT2 "e1" "third" false).1

def queueT4 : MgrState := (startBot queueT3 cfg1 none).1

/-- A prior status record with every field populated (for the
shallow-merge claim). -/
def statusA : Status :=
  { status := "online", connectedSince := some "2026-01-01T00:00:00Z",
    lastError := some "old error", world := some "overworld",
    dimension := some "overworld", position := some "0 64 0",
    stats := some [("health", "20")] }

/-- A patch touching only the `status` field. -/
def patchA : StatusPatch := { status := some "offline" }

/-- A manager whose only status record is `statusA` under id `e1`. -/
def stateA : MgrState := ⟨[], [], [], [("e1", statusA)], [], [], [], []⟩

/-! ### Association map lemmas -/

theorem alookup_ainsert {α : Type} (m : List (String × α)) (k : String) (v : α) (q : String) :
    alookup (ainsert m k v) q = if q = k then some v else alookup m q := by
  induction m with
  | nil =>
    by_cases h : q = k
    · simp [ainsert, alookup, h]
    · simp [ainsert, alookup, h, Ne.symm h]
  | cons kv t ih =>
    by_cases hk : kv.1 = k
    · by_cases hq : q = k
      · simp [ainsert, alookup, hk, hq]
      · simp [ainsert, alookup, hk, hq, Ne.symm hq]
    · by_cases hq1 : kv.1 = q
      · have hq : ¬ q = k := fun h => hk (by rw [hq1, h])
        simp [ainsert, alookup, hk, hq1, hq]
      · simp [ainsert, alookup, hk, hq1, ih]

theorem alookup_aerase {α : Type} (m : List (String × α)) (k q : String) :
    alookup (aerase m k) q = if q = k then none else alookup m q := by
  induction m with
  | nil => simp [aerase, alookup]
  | cons kv t ih =>
    by_cases hk : kv.1 = k
    · by_cases hq : q = k
      · subst hq
        simp only [aerase, hk, if_pos rfl]
        simpa using ih
      · simp [aerase, alookup, hk, hq, ih, Ne.symm hq]
    · by_cases hq1 : kv.1 = q
      · have hq : ¬ q = k := fun h => hk (by rw [hq1, h])
        simp [aerase, alookup, hk, hq1, hq]
      · simp [aerase, alookup, hk, hq1, ih]

theorem aerase_aerase {α : Type} (m : List (String × α)) (k : String) :
    aerase (aerase m k) k = aerase m k := by
  induction m with
  | nil => simp [aerase]
  | cons kv t ih =>
    by_cases hk : kv.1 = k
    · simp [aerase, hk, ih]
    · simp [aerase, hk, ih]

theorem keyCount_eq_zero {α : Type} (m : List (String × α)) (k : String)
    (h : alookup m k = none) : keyCount m k = 0 := by
  induction m with
  | nil => rfl
  | cons kv t ih =>
    by_cases hk : kv.1 = k
    · simp [alookup, hk] at h
    · simp [alookup, hk] at h
      simp [keyCount, hk, ih h]

theorem keyCount_ainsert_of_none {α : Type} (m : List (String × α)) (k : String) (v : α)
    (h : alookup m k = none) : keyCount (ainsert m k v) k = keyCount m k + 1 := by
  induction m with
  | nil => simp [ainsert, keyCount]
  | cons kv t ih =>
    by_cases hk : kv.1 = k
    · simp [alookup, hk] at h
    · simp [alookup, hk] at h
      simp [ainsert, keyCount, hk, ih h]

theorem isSome_alookup_ainsert {α : Type} (m : List (String × α)) (k : String) (v : α)
    (q : String) :
    (alookup (ainsert m k v) q).isSome = true ↔ (q = k ∨ (alookup m q).isSome = true) := by
  rw [alookup_ainsert]
  by_cases h : q = k <;> simp [h]

theorem isSome_alookup_cons {α : Type} (kv : String × α) (t : List (String × α))
    (q : String) :
    (alookup (kv :: t) q).isSome = true ↔ (q = kv.1 ∨ (alookup t q).isSome = true) := by
  by_cases h : q = kv.1
  · simp [alookup, h]
  · have h2 : ¬ kv.1 = q := fun hh => h hh.symm
    simp [alookup, h, h2]

theorem alookup_foldl_ainsert {α : Type} (l : List (String × α)) (acc : List (String × α))
    (k : String) :
    (alookup (l.foldl (fun m kv => ainsert m kv.1 kv.2) acc) k).isSome = true ↔
      ((alookup acc k).isSome = true ∨ (alookup l k).isSome = true) := by
  induction l generalizing acc with
  | nil => simp [alookup]
  | cons kv t ih =>
    simp only [List.foldl_cons]
    rw [ih, isSome_alookup_ainsert, isSome_alookup_cons]
    tauto

/-! ### Frame lemmas: which state components each operation leaves alone -/

theorem updateStatus_bots (s : MgrState) (id : String) (p : StatusPatch) :
    (updateStatus s id p).bots = s.bots := rfl

theorem updateStatus_sessions (s : MgrState) (id : String) (p : StatusPatch) :
    (updateStatus s id p).sessions = s.sessions := rfl

theorem updateStatus_messageQueue (s : MgrState) (id : String) (p : StatusPatch) :
    (updateStatus s id p).messageQueue = s.messageQueue := rfl

theorem scheduleReconnect_botStatus (s : MgrState) (id : String) (cfg : BotConfig) :
    (scheduleReconnect s id cfg).botStatus = s.botStatus := by
  unfold scheduleReconnect
  dsimp only
  split_ifs <;> rfl

theorem scheduleReconnect_messageQueue (s : MgrState) (id : String) (cfg : BotConfig) :
    (scheduleReconnect s id cfg).messageQueue = s.messageQueue := by
  unfold scheduleReconnect
  dsimp only
  split_ifs <;> rfl

theorem cleanupBot_botStatus (s : MgrState) (id : String) (b : Bool) :
    (cleanupBot s id b).botStatus = s.botStatus := by
  unfold cleanupBot
  split_ifs <;> rfl

theorem cleanupBot_messageQueue (s : MgrState) (id : String) (b : Bool) :
    (cleanupBot s id b).messageQueue = s.messageQueue := by
  unfold cleanupBot
  split_ifs <;> rfl

theorem startKeepAlive_botStatus (s : MgrState) (id : String) :
    (startKeepAlive s id).botStatus = s.botStatus := by
  unfold startKeepAlive
  split <;> rfl

theorem startKeepAlive_messageQueue (s : MgrState) (id : String) :
    (startKeepAlive s id).messageQueue = s.messageQueue := by
  unfold startKeepAlive
  split <;> rfl

theorem processMessageQueue_botStatus (s : MgrState) (id : String) :
    (processMessageQueue s id).1.botStatus = s.botStatus := by
  unfold processMessageQueue
  dsimp only
  split <;> rfl

/-! ### Claim theorems -/

/-- C2, counterexample: the code computes the first retry delay as
`min(300000, 5000 * 1.5^1) = 7500` ms, so `delay(1)` is not the base
delay 5000 ms that the claim asserts. -/
theorem claim2_counterexample :
    reconnectDelay 1 = 7500 ∧ reconnectDelay 1 ≠ 5000 := by
  constructor <;> norm_num [reconnectDelay, min_def]

/-- C2, amended: the delay sequence of `scheduleReconnect` is monotone
and capped by `maxDelay = 300000` ms for every attempt count `n ≥ 1`,
but its first value is `baseDelay * growthFactor = 7500` ms, not
`baseDelay = 5000` ms. -/
theorem claim2_amended :
    (∀ n : Nat, 1 ≤ n →
      reconnectDelay n ≤ reconnectDelay (n + 1) ∧ reconnectDelay (n + 1) ≤ 300000) ∧
    reconnectDelay 1 = 5000 * (3 / 2) := by
  refine ⟨fun n _ => ⟨?_, min_le_left _ _⟩, by norm_num [reconnectDelay, min_def]⟩
  unfold reconnectDelay
  exact min_le_min le_rfl
    (mul_le_mul_of_nonneg_left
      (pow_le_pow_right₀ (by norm_num) (Nat.le_succ n)) (by norm_num))

/-- C2, witness: the amended monotonicity statement at `n = 1`. -/
theorem claim2_witness :
    reconnectDelay 1 ≤ reconnectDelay 2 ∧ reconnectDelay 2 ≤ 300000 :=
  claim2_amended.1 1 (by norm_num)

/-- C1, counterexample: three consecutive connect failures of endpoint
`e1` (each scheduling a reconnect whose retry fails again at bot
creation) produce the scheduled delays 7500 ms, 11250 ms, 16875 ms —
not the approximately 5000 ms, 7500 ms, 11250 ms the claim asserts; in
particular the very first scheduled delay is 7500 ms, not 5000 ms. -/
theorem claim1_counterexample :
    timerDelay failT1 "e1" = some 7500 ∧
    timerDelay failT2 "e1" = some 11250 ∧
    timerDelay failT3 "e1" = some 16875 ∧
    (7500 : ℚ) ≠ 5000 := by
  refine ⟨?_, ?_, ?_, by norm_num⟩
  · rw [show timerDelay failT1 "e1" = some (reconnectDelay 1) from rfl]
    norm_num [reconnectDelay, min_def]
  · rw [show timerDelay failT2 "e1" = some (reconnectDelay 2) from rfl]
    norm_num [reconnectDelay, min_def]
  · rw [show timerDelay failT3 "e1" = some (reconnectDelay 3) from rfl]
    norm_num [reconnectDelay, min_def]

/-- C1, amended: when consecutive failures keep incrementing the attempt
counter (bot creation throws, so the counter reset inside `startBot` is
never reached) the scheduled delays follow `reconnectDelay n` for
`n = 1, 2, 3`, i.e. 7500 ms, 11250 ms and 16875 ms, and the delay is
capped at exactly 300000 ms for every attempt count `n ≥ 11`; when
instead each retry succeeds in creating the bot object before failing
asynchronously, `startBot` resets the counter to 0 and every scheduled
delay is `reconnectDelay 1 = 7500` ms. -/
theorem claim1_amended :
    (timerDelay failT1 "e1" = some (reconnectDelay 1) ∧
     timerDelay failT2 "e1" = some (reconnectDelay 2) ∧
     timerDelay failT3 "e1" = some (reconnectDelay 3)) ∧
    (reconnectDelay 1 = 7500 ∧ reconnectDelay 2 = 11250 ∧ reconnectDelay 3 = 16875) ∧
    (∀ n : Nat, 11 ≤ n → reconnectDelay n = 300000) ∧
    (timerDelay asyncT2 "e1" = some (reconnectDelay 1) ∧
     timerDelay asyncT4 "e1" = some (reconnectDelay 1)) := by
  refine ⟨⟨rfl, rfl, rfl⟩, ⟨?_, ?_, ?_⟩, fun n hn => ?_, ⟨rfl, rfl⟩⟩
  · norm_num [reconnectDelay, min_def]
  · norm_num [reconnectDelay, min_def]
  · norm_num [reconnectDelay, min_def]
  · unfold reconnectDelay
    apply min_eq_left
    have h1 : (3 / 2 : ℚ) ^ 11 ≤ (3 / 2 : ℚ) ^ n := pow_le_pow_right₀ (by norm_num) hn
    nlinarith [h1]

/-- C1, witness: the cap clause of the amended claim at `n = 11`. -/
theorem claim1_witness : reconnectDelay 11 = 300000 :=
  claim1_amended.2.2.1 11 (by norm_num)

/-- C3, code bug: after `startBot` succeeds, an `error` event schedules a
reconnect and removes the handle from `this.bots`; `stopBot` then clears
that timer and reports offline, but it finds no live handle, so it marks
no session as manually stopped.  When the delayed `end` event of the
stopped session arrives, its handler sees `manuallyStopped = false` and
`scheduleReconnect` finds no registered bot to check, so a fresh
reconnect timer (7500 ms) is armed after the manual stop with no
intervening start — violating the stop-always-wins invariant. -/
theorem claim3_bug_trace :
    timerDelay stopT3 "e1" = none ∧
    (getBotStatus stopT3 "e1").status = "offline" ∧
    timerDelay stopT4 "e1" = some (reconnectDelay 1) ∧
    reconnectDelay 1 = 7500 := by
  refine ⟨rfl, rfl, rfl, by norm_num [reconnectDelay, min_def]⟩

/-- C4, code bug: `shutdownAll` iterates only the live handles in
`this.bots`.  An endpoint that was kicked has no live handle but a
pending reconnect timer; after `shutdownAll` (run once or repeatedly)
that timer is still armed and will fire and restart the bot, so the
claim that no timer for any endpoint ever fires afterwards fails. -/
theorem claim4_bug_trace :
    alookup shutT2.bots "e1" = none ∧
    timerDelay shutT2 "e1" = some (reconnectDelay 1) ∧
    timerDelay shutT3 "e1" = some (reconnectDelay 1) ∧
    timerDelay (shutdownAll shutT3) "e1" = some (reconnectDelay 1) := by
  exact ⟨rfl, rfl, rfl, rfl⟩

theorem startBot_already_running (s : MgrState) (cfg : BotConfig) (res : Option String)
    (h : (alookup s.bots cfg.id).isSome = true) :
    startBot s cfg res =
      ({ s with reconnectTimers := aerase s.reconnectTimers cfg.id },
        [⟨cfg.id, "warn", "Bot is already running"⟩]) := by
  simp [startBot, h]

/-- C5, confirmed: `startBot` on an endpoint that already has a live
handle registers no second handle or session, arms no timer, and only
emits the `Bot is already running` warning (its sole state effect is
clearing a pending reconnect timer, which `startBot` always does
first); consequently two consecutive starts with no intervening
stop/disconnect leave the state of the first start unchanged, with
exactly one handle registered for the endpoint. -/
theorem claim5_one_handle (s : MgrState) (cfg : BotConfig) (res res2 : Option String) :
    ((alookup s.bots cfg.id).isSome = true →
      startBot s cfg res =
        ({ s with reconnectTimers := aerase s.reconnectTimers cfg.id },
          [⟨cfg.id, "warn", "Bot is already running"⟩]) ∧
      keyCount (startBot s cfg res).1.bots cfg.id = keyCount s.bots cfg.id) ∧
    (alookup s.bots cfg.id = none →
      startBot (startBot s cfg none).1 cfg res2 =
        ((startBot s cfg none).1, [⟨cfg.id, "warn", "Bot is already running"⟩]) ∧
      keyCount (startBot s cfg none).1.bots cfg.id = 1) := by
  constructor
  · intro h
    refine ⟨startBot_already_running s cfg res h, ?_⟩
    rw [startBot_already_running s cfg res h]
  · intro h
    have hbots : (startBot s cfg none).1.bots = ainsert s.bots cfg.id s.sessions.length := by
      simp [startBot, h, updateStatus]
    have htim : (startBot s cfg none).1.reconnectTimers = aerase s.reconnectTimers cfg.id := by
      simp [startBot, h, updateStatus]
    have hb : (alookup (startBot s cfg none).1.bots cfg.id).isSome = true := by
      rw [hbots, alookup_ainsert]
      simp
    refine ⟨?_, ?_⟩
    · rw [startBot_already_running _ cfg res2 hb]
      have h2 : aerase (startBot s cfg none).1.reconnectTimers cfg.id =
          (startBot s cfg none).1.reconnectTimers := by
        rw [htim, aerase_aerase]
      rw [h2]
    · rw [hbots, keyCount_ainsert_of_none _ _ _ h, keyCount_eq_zero _ _ h]

/-- C5, witness: the running-endpoint no-op at the concrete state
`stopT1` (live handle) and the double-start scenario from the freshly
loaded manager `failT0`. -/
theorem claim5_witness :
    (startBot stopT1 cfg1 none =
        ({ stopT1 with reconnectTimers := aerase stopT1.reconnectTimers cfg1.id },
          [⟨cfg1.id, "warn", "Bot is already running"⟩]) ∧
      keyCount (startBot stopT1 cfg1 none).1.bots cfg1.id = keyCount stopT1.bots cfg1.id) ∧
    (startBot (startBot failT0 cfg1 none).1 cfg1 none =
        ((startBot failT0 cfg1 none).1, [⟨cfg1.id, "warn", "Bot is already running"⟩]) ∧
      keyCount (startBot failT0 cfg1 none).1.bots cfg1.id = 1) :=
  ⟨(claim5_one_handle stopT1 cfg1 none none).1 rfl,
   (claim5_one_handle failT0 cfg1 none none).2 rfl⟩

/-- C6, counterexample: a `kicked` event carrying the reason
`You are banned` leaves the endpoint in state `offline` (with the
reason recorded in `lastError`), not in state `error` as the claim
requires when a failure reason is present. -/
theorem claim6_counterexample :
    (getBotStatus kickedState "e1").status = "offline" ∧
    (getBotStatus kickedState "e1").lastError = some "Kicked: You are banned" ∧
    (getBotStatus kickedState "e1").status ≠ "error" := by
  refine ⟨rfl, rfl, by decide⟩

/-- C6, amended: a `kicked` event always sets state `offline` with
`lastError = "Kicked: <reason>"`; an `error` event sets state `error`
with `lastError = err.message`; an `end` event always sets state
`offline` — whether or not a reason is present — and leaves `lastError`
unchanged. -/
theorem claim6_amended (s : MgrState) (sid : Nat) (sess : Session) (reason : String)
    (msg : Option String) (r : Option String)
    (h : s.sessions.get? sid = some sess) :
    (getBotStatus (onKicked s sid reason) sess.botId).status = "offline" ∧
    (getBotStatus (onKicked s sid reason) sess.botId).lastError =
      some ("Kicked: " ++ reason) ∧
    (getBotStatus (onError s sid msg) sess.botId).status = "error" ∧
    (getBotStatus (onError s sid msg) sess.botId).lastError = msg ∧
    (getBotStatus (onEnd s sid r) sess.botId).status = "offline" ∧
    (getBotStatus (onEnd s sid r) sess.botId).lastError =
      (getBotStatus s sess.botId).lastError := by
  have hk : (onKicked s sid reason).botStatus =
      ainsert s.botStatus sess.botId
        (mergeStatus
          ((alookup s.botStatus sess.botId).getD { status := "offline", stats := some [] })
          { status := some "offline",
            lastError := some (some ("Kicked: " ++ reason)) }) := by
    unfold onKicked
    rw [h]
    dsimp only
    split_ifs <;> simp [cleanupBot_botStatus, scheduleReconnect_botStatus, updateStatus]
  have he : (onError s sid msg).botStatus =
      ainsert s.botStatus sess.botId
        (mergeStatus
          ((alookup s.botStatus sess.botId).getD { status := "offline", stats := some [] })
          { status := some "error", lastError := some msg }) := by
    unfold onError
    rw [h]
    dsimp only
    split_ifs <;> simp [cleanupBot_botStatus, scheduleReconnect_botStatus, updateStatus]
  have hd : (onEnd s sid r).botStatus =
      ainsert s.botStatus sess.botId
        (mergeStatus
          ((alookup s.botStatus sess.botId).getD { status := "offline", stats := some [] })
          { status := some "offline" }) := by
    unfold onEnd
    rw [h]
    dsimp only
    split_ifs <;> simp [cleanupBot_botStatus, scheduleReconnect_botStatus, updateStatus]
  refine ⟨?_, ?_, ?_, ?_, ?_, ?_⟩
  · simp [getBotStatus, hk, alookup_ainsert, mergeStatus]
  · simp [getBotStatus, hk, alookup_ainsert, mergeStatus]
  · simp [getBotStatus, he, alookup_ainsert, mergeStatus]
  · simp [getBotStatus, he, alookup_ainsert, mergeStatus]
  · simp [getBotStatus, hd, alookup_ainsert, mergeStatus]
  · cases halook : alookup s.botStatus sess.botId <;>
      simp [getBotStatus, hd, alookup_ainsert, mergeStatus, halook]

/-- C6, witness: the amended statement instantiated at the live session
0 of `stopT1` with a kick reason, an error message and an end reason. -/
theorem claim6_witness :
    (getBotStatus (onKicked stopT1 0 "spam") sess1.botId).status = "offline" ∧
    (getBotStatus (onKicked stopT1 0 "spam") sess1.botId).lastError =
      some ("Kicked: " ++ "spam") ∧
    (getBotStatus (onError stopT1 0 (some "boom")) sess1.botId).status = "error" ∧
    (getBotStatus (onError stopT1 0 (some "boom")) sess1.botId).lastError = some "boom" ∧
    (getBotStatus (onEnd stopT1 0 (some "socketClosed")) sess1.botId).status = "offline" ∧
    (getBotStatus (onEnd stopT1 0 (some "socketClosed")) sess1.botId).lastError =
      (getBotStatus stopT1 sess1.botId).lastError :=
  claim6_amended stopT1 0 sess1 "spam" (some "boom") (some "socketClosed") rfl

/-- C7, counterexample: immediately after a successful `startBot` the
endpoint is in state `connecting` (not `online`), yet `sendMessage`
finds the live handle and transmits immediately, returning delivered —
so transmission is not restricted to the Online state. -/
theorem claim7_counterexample :
    (getBotStatus stopT1 "e1").status = "connecting" ∧
    (sendMessage stopT1 "e1" "hello" false).2 = true ∧
    (getBotStatus stopT1 "e1").status ≠ "online" := by
  refine ⟨rfl, rfl, by decide⟩

/-- C7, amended: `sendMessage` transmits immediately exactly when a live
handle exists for the endpoint (states Connecting or Online alike); when
transmission throws, or when no handle exists (in particular while
Offline), the message is appended to the endpoint's FIFO queue and the
call returns the queued result instead of raising. -/
theorem claim7_amended (s : MgrState) (id msg : String) :
    ((alookup s.bots id).isSome = true → sendMessage s id msg false = (s, true)) ∧
    ((alookup s.bots id).isSome = true →
      sendMessage s id msg true =
        ({ s with messageQueue :=
            ainsert s.messageQueue id (((alookup s.messageQueue id).getD []) ++ [msg]) },
          false)) ∧
    (∀ t : Bool, alookup s.bots id = none →
      sendMessage s id msg t =
        ({ s with messageQueue :=
            ainsert s.messageQueue id (((alookup s.messageQueue id).getD []) ++ [msg]) },
          false)) := by
  refine ⟨fun h => ?_, fun h => ?_, fun t h => ?_⟩
  · obtain ⟨sid, hs⟩ := Option.isSome_iff_exists.mp h
    simp [sendMessage, hs]
  · obtain ⟨sid, hs⟩ := Option.isSome_iff_exists.mp h
    simp [sendMessage, hs]
  · cases t <;> simp [sendMessage, h]

/-- C7, witness: immediate transmission with a live handle at `stopT1`,
and queueing with no handle at `stopT2` (after the error event removed
the handle). -/
theorem claim7_witness :
    sendMessage stopT1 "e1" "hi" false = (stopT1, true) ∧
    sendMessage stopT2 "e1" "hi" false =
      ({ stopT2 with
          messageQueue := ainsert stopT2.messageQueue "e1"
            (((alookup stopT2.messageQueue "e1").getD []) ++ ["hi"]) },
        false) :=
  ⟨(claim7_amended stopT1 "e1" "hi").1 rfl,
   (claim7_amended stopT2 "e1" "hi").2.2 false rfl⟩

theorem processMessageQueue_spec (s : MgrState) (id : String) (q : List String)
    (hq : alookup s.messageQueue id = some q) (hne : q ≠ []) :
    processMessageQueue s id =
      ({ s with messageQueue := ainsert s.messageQueue id [] },
        q.enum.map (fun p => ((1000 : ℚ) * p.1, p.2))) := by
  cases q with
  | nil => exact absurd rfl hne
  | cons a l => simp [processMessageQueue, hq]

/-- C8, confirmed: when the endpoint transitions to Online (its `spawn`
handler fires, registered with `once`), every message then in its queue
is scheduled in the original FIFO order, message `i` after `1000 * i`
ms (a fixed 1-second spacing), and the queue is cleared in the same
step — before any scheduled delivery has run. -/
theorem claim8_flush (s : MgrState) (id : String) (q : List String)
    (hq : alookup s.messageQueue id = some q) (hne : q ≠ []) :
    ((processMessageQueue s id).2.map Prod.snd = q ∧
     (processMessageQueue s id).2.map Prod.fst =
       (List.range q.length).map (fun i : Nat => (1000 : ℚ) * i) ∧
     alookup (processMessageQueue s id).1.messageQueue id = some []) ∧
    (∀ sid sess now w pos, s.sessions.get? sid = some sess → sess.botId = id →
      (onSpawn s sid now w pos).2 = (processMessageQueue s id).2 ∧
      alookup (onSpawn s sid now w pos).1.messageQueue id = some [] ∧
      (getBotStatus (onSpawn s sid now w pos).1 id).status = "online") := by
  have hps := processMessageQueue_spec s id q hq hne
  have hsnd : (q.enum.map (fun p => ((1000 : ℚ) * p.1, p.2))).map Prod.snd = q := by
    rw [List.map_map]
    exact List.enum_map_snd q
  have hfst : (q.enum.map (fun p => ((1000 : ℚ) * p.1, p.2))).map Prod.fst =
      (List.range q.length).map (fun i : Nat => (1000 : ℚ) * i) := by
    rw [List.map_map]
    rw [show (Prod.fst ∘ fun p : Nat × String => ((1000 : ℚ) * p.1, p.2)) =
        ((fun i : Nat => (1000 : ℚ) * i) ∘ Prod.fst) from rfl]
    rw [← List.map_map, List.enum_map_fst]
  refine ⟨⟨?_, ?_, ?_⟩, ?_⟩
  · rw [hps]
    exact hsnd
  · rw [hps]
    exact hfst
  · rw [hps]
    dsimp only
    rw [alookup_ainsert]
    simp
  · intro sid sess now w pos hsess hid
    subst hid
    unfold onSpawn
    rw [hsess]
    dsimp only
    have hq2 : alookup (startKeepAlive
        (updateStatus s sess.botId
          { status := some "online", connectedSince := some (some now),
            world := some (some w), dimension := some (some w),
            position := some (some pos) }) sess.botId).messageQueue sess.botId = some q := by
      rw [startKeepAlive_messageQueue, updateStatus_messageQueue]
      exact hq
    have hps2 := processMessageQueue_spec _ sess.botId q hq2 hne
    refine ⟨?_, ?_, ?_⟩
    · rw [hps2, hps]
    · rw [hps2]
      dsimp only
      rw [alookup_ainsert]
      simp
    · simp only [getBotStatus, processMessageQueue_botStatus, startKeepAlive_botStatus,
        updateStatus]
      rw [alookup_ainsert]
      simp [mergeStatus]

/-- C8, witness: the flush at the concrete state `queueT4`, whose queue
holds three messages enqueued while offline, when session 0 spawns. -/
theorem claim8_witness :
    ((processMessageQueue queueT4 "e1").2.map Prod.snd = ["first", "second", "third"] ∧
     (processMessageQueue queueT4 "e1").2.map Prod.fst =
       (List.range 3).map (fun i : Nat => (1000 : ℚ) * i) ∧
     alookup (processMessageQueue queueT4 "e1").1.messageQueue "e1" = some []) ∧
    ((onSpawn queueT4 0 "2026-02-03T04:05:06Z" "overworld" "spawn").2 =
       (processMessageQueue queueT4 "e1").2 ∧
     alookup (onSpawn queueT4 0 "2026-02-03T04:05:06Z" "overworld"
       "spawn").1.messageQueue "e1" = some [] ∧
     (getBotStatus (onSpawn queueT4 0 "2026-02-03T04:05:06Z" "overworld"
       "spawn").1 "e1").status = "online") :=
  ⟨(claim8_flush queueT4 "e1" ["first", "second", "third"] rfl (by decide)).1,
   (claim8_flush queueT4 "e1" ["first", "second", "third"] rfl (by decide)).2
     0 sess1 "2026-02-03T04:05:06Z" "overworld" "spawn" rfl rfl⟩

/-- C9, confirmed: `updateStatus` stores the shallow merge of the
existing record with the patch — never a wholesale replacement — and
every top-level field absent from the patch keeps its prior value. -/
theorem claim9_merge (s : MgrState) (id : String) (p : StatusPatch) (cur : Status)
    (h : alookup s.botStatus id = some cur) :
    alookup (updateStatus s id p).botStatus id = some (mergeStatus cur p) ∧
    (p.status = none → (mergeStatus cur p).status = cur.status) ∧
    (p.connectedSince = none → (mergeStatus cur p).connectedSince = cur.connectedSince) ∧
    (p.lastError = none → (mergeStatus cur p).lastError = cur.lastError) ∧
    (p.world = none → (mergeStatus cur p).world = cur.world) ∧
    (p.dimension = none → (mergeStatus cur p).dimension = cur.dimension) ∧
    (p.position = none → (mergeStatus cur p).position = cur.position) ∧
    (p.stats = none → (mergeStatus cur p).stats = cur.stats) := by
  refine ⟨?_, fun h1 => ?_, fun h1 => ?_, fun h1 => ?_, fun h1 => ?_, fun h1 => ?_,
    fun h1 => ?_, fun h1 => ?_⟩
  · simp [updateStatus, h, alookup_ainsert]
  · simp [mergeStatus, h1]
  · simp [mergeStatus, h1]
  · simp [mergeStatus, h1]
  · simp [mergeStatus, h1]
  · simp [mergeStatus, h1]
  · simp [mergeStatus, h1]
  · simp [mergeStatus, h1]

/-- C9, witness: a patch touching only `status` applied over the fully
populated record `statusA` keeps every other field. -/
theorem claim9_witness :
    alookup (updateStatus stateA "e1" patchA).botStatus "e1" =
      some (mergeStatus statusA patchA) ∧
    (mergeStatus statusA patchA).connectedSince = statusA.connectedSince ∧
    (mergeStatus statusA patchA).lastError = statusA.lastError ∧
    (mergeStatus statusA patchA).stats = statusA.stats :=
  ⟨(claim9_merge stateA "e1" patchA statusA rfl).1,
   (claim9_merge stateA "e1" patchA statusA rfl).2.2.1 rfl,
   (claim9_merge stateA "e1" patchA statusA rfl).2.2.2.1 rfl,
   (claim9_merge stateA "e1" patchA statusA rfl).2.2.2.2.2.2.2 rfl⟩

/-- C10, confirmed: `getBotStatus` is total — it returns the recorded
record when one exists and the default `{ status: 'offline' }` when the
id was never loaded or started — and `getAllBotStatuses` contains an
entry exactly for the ids with a recorded status. -/
theorem claim10_status_total (s : MgrState) (id : String) :
    (alookup s.botStatus id = none → getBotStatus s id = { status := "offline" }) ∧
    (∀ rec, alookup s.botStatus id = some rec → getBotStatus s id = rec) ∧
    ((alookup (getAllBotStatuses s) id).isSome = true ↔
      (alookup s.botStatus id).isSome = true) := by
  refine ⟨fun h => ?_, fun rec h => ?_, ?_⟩
  · simp [getBotStatus, h]
  · simp [getBotStatus, h]
  · unfold getAllBotStatuses
    rw [alookup_foldl_ainsert]
    simp [alookup]

/-- C10, witness: the default record for a never-seen id and the loaded
record for `e1` on the freshly loaded manager `failT0`. -/
theorem claim10_witness :
    getBotStatus failT0 "nope" = { status := "offline" } ∧
    getBotStatus failT0 "e1" =
      { status := "offline", connectedSince := none, lastError := none,
        stats := some [] } :=
  ⟨(claim10_status_total failT0 "nope").1 rfl,
   (claim10_status_total failT0 "e1").2.1 _ rfl⟩

end BotControl
